import Mathlib

/-!
Verification development for the core of cannon.js v0.3.3 (a lightweight 3D
rigid-body physics engine).  The definitions below are shallow embeddings of
the JavaScript source: vector/quaternion/matrix arithmetic, the 3x3 Gaussian
solve (`CANNON.Mat3.prototype.solve`), the first-contact impulse handler
(`CANNON.World.prototype._addImpulse`), the SPOOK projected Gauss-Seidel
solver (`CANNON.Solver.prototype.solve`), the contact-history matrix helper
(`cmatrix` inside `CANNON.World.prototype.step`), the box-plane narrowphase
corner loop, the world SoA arrays (`CANNON.World.prototype.add`, the body
getters/setters) and the no-contact step pipeline.

Numbers are modelled by exact rationals.  The source stores 32-bit floats;
none of the statements proved here depends on rounding, and where IEEE
special values (NaN, Infinity) are essential (the singularity check of the
3x3 solve) a dedicated special-value arithmetic `F` is used.
-/

namespace Cannon

/-- 3-vector over the rationals (CANNON.Vec3). -/
structure V3 where
  x : ℚ
  y : ℚ
  z : ℚ
deriving DecidableEq, Repr

namespace V3

/-- CANNON.Vec3.prototype.vadd. -/
def vadd (a b : V3) : V3 := ⟨a.x + b.x, a.y + b.y, a.z + b.z⟩

/-- CANNON.Vec3.prototype.vsub. -/
def vsub (a b : V3) : V3 := ⟨a.x - b.x, a.y - b.y, a.z - b.z⟩

/-- CANNON.Vec3.prototype.mult (scalar multiplication). -/
def mult (a : V3) (s : ℚ) : V3 := ⟨s * a.x, s * a.y, s * a.z⟩

/-- CANNON.Vec3.prototype.dot. -/
def dot (a b : V3) : ℚ := a.x * b.x + a.y * b.y + a.z * b.z

/-- CANNON.Vec3.prototype.cross. -/
def cross (a b : V3) : V3 :=
  ⟨a.y * b.z - a.z * b.y, a.z * b.x - a.x * b.z, a.x * b.y - a.y * b.x⟩

/-- CANNON.Vec3.prototype.negate. -/
def negate (a : V3) : V3 := ⟨-a.x, -a.y, -a.z⟩

end V3

/-- Quaternion over the rationals (CANNON.Quaternion), stored as (x,y,z,w). -/
structure Quat where
  x : ℚ
  y : ℚ
  z : ℚ
  w : ℚ
deriving DecidableEq, Repr

namespace Quat

/-- The constructor defaults of CANNON.Quaternion: `x = 1, y = 0, z = 0, w = 0`
(each component defaults when the argument is `undefined`). -/
def defaultQ : Quat := ⟨1, 0, 0, 0⟩

/-- CANNON.Quaternion.prototype.mult (Hamilton product, as written in the
source via `va`, `vb` and their cross product). -/
def mult (a q : Quat) : Quat :=
  let va : V3 := ⟨a.x, a.y, a.z⟩
  let vb : V3 := ⟨q.x, q.y, q.z⟩
  let vaxvb := va.cross vb
  { w := a.w * q.w - va.dot vb
    x := a.w * vb.x + q.w * va.x + vaxvb.x
    y := a.w * vb.y + q.w * va.y + vaxvb.y
    z := a.w * vb.z + q.w * va.z + vaxvb.z }

/-- CANNON.Quaternion.prototype.vmult: rotate vector `v` by the quaternion,
transcribed from the component formulas of the source. -/
def vmult (q : Quat) (v : V3) : V3 :=
  let ix : ℚ :=  q.w * v.x + q.y * v.z - q.z * v.y
  let iy : ℚ :=  q.w * v.y + q.z * v.x - q.x * v.z
  let iz : ℚ :=  q.w * v.z + q.x * v.y - q.y * v.x
  let iw : ℚ := -q.x * v.x - q.y * v.y - q.z * v.z
  { x := ix * q.w + iw * (-q.x) + iy * (-q.z) - iz * (-q.y)
    y := iy * q.w + iw * (-q.y) + iz * (-q.x) - ix * (-q.z)
    z := iz * q.w + iw * (-q.z) + ix * (-q.y) - iy * (-q.x) }

/-- Squared norm of a quaternion. -/
def normSq (q : Quat) : ℚ := q.x * q.x + q.y * q.y + q.z * q.z + q.w * q.w

end Quat

/-!
## The 3x3 Gaussian solve (CANNON.Mat3.prototype.solve)

The solve routine is transcribed once, generically over a scalar arithmetic
`JsArith`, and instantiated twice:
* at `ℚ` (exact arithmetic, used by the impulse handler, where the pivot is
  nonzero on every trace reasoned about — note Lean's `q / 0 = 0` convention
  differs from IEEE only at divisions by zero, which the `F` instance models);
* at `F`, a model of IEEE special values (NaN, plus and minus infinity over
  exact rationals), used for the singularity-check claim.

`elements` is the column-major 9-element array of CANNON.Mat3; `eqns` is the
3x4 scratch array of the source, addressed as `eqns[p + 4*j]` (slot `p` of
row `j`); row `j` of `eqns` initially holds column `j` of `elements` together
with the right-hand side component `b_j`.
-/

/-- The scalar operations the transcription of `Mat3.solve` needs.
`isZero` is the JavaScript `== 0` test (false on NaN and on infinities). -/
class JsArith (α : Type) where
  zero : α
  add : α → α → α
  sub : α → α → α
  mul : α → α → α
  div : α → α → α
  isZero : α → Bool

instance : JsArith ℚ where
  zero := 0
  add := (· + ·)
  sub := (· - ·)
  mul := (· * ·)
  div := (· / ·)
  isZero q := q = 0

/-- Pointwise update of a scratch array modelled as a function. -/
def updA {α : Type} (f : ℕ → α) (k : ℕ) (v : α) : ℕ → α :=
  fun n => if n = k then v else f n

variable {α : Type} [JsArith α]

/-- Initial `eqns` array: `eqns[i+4*j] = elements[i+3*j]` for `i, j < 3`,
`eqns[3+4*j] = b_j`. -/
def eqnsInit (elements : ℕ → α) (bx By bz : α) : ℕ → α := fun idx =>
  let j := idx / 4
  let i := idx % 4
  if i = 3 then (if j = 0 then bx else if j = 1 then By else bz)
  else elements (i + 3 * j)

/-- The zero-pivot fix-up of `Mat3.solve`: if `eqns[i+4*i] == 0`, the first
row `j` in `(i, 3)` with `eqns[i+4*j] != 0` is added slotwise to row `i` into
a temporary `els`, of which the first three entries are written back to
`eqns[i+4*0]`, `eqns[i+4*1]`, `eqns[i+4*2]` (the write pattern of the
source). -/
def pivotFix (eqns : ℕ → α) (i : ℕ) : ℕ → α :=
  if JsArith.isZero (eqns (i + 4 * i)) then
    match ((List.range 3).drop (i + 1)).filter
        (fun j => ! JsArith.isZero (eqns (i + 4 * j))) with
    | [] => eqns
    | j :: _ =>
      let els : ℕ → α := fun p => JsArith.add (eqns (p + 4 * i)) (eqns (p + 4 * j))
      updA (updA (updA eqns (i + 4 * 0) (els 0)) (i + 4 * 1) (els 1)) (i + 4 * 2) (els 2)
  else eqns

/-- One row-elimination of `Mat3.solve` for pivot row `i` and target row `j`:
`multiplier = eqns[i+4*j] / eqns[i+4*i]`,
`els[p] = (p <= i) ? 0 : eqns[p+4*j] - eqns[p+4*i] * multiplier`, and the
first three entries of `els` are written to `eqns[j+4*0..2]` (again the
write pattern of the source, which scatters the new row across a column). -/
def elimRow (i : ℕ) (eqns : ℕ → α) (j : ℕ) : ℕ → α :=
  let multiplier := JsArith.div (eqns (i + 4 * j)) (eqns (i + 4 * i))
  let els : ℕ → α := fun p =>
    if p ≤ i then JsArith.zero
    else JsArith.sub (eqns (p + 4 * j)) (JsArith.mul (eqns (p + 4 * i)) multiplier)
  updA (updA (updA eqns (j + 4 * 0) (els 0)) (j + 4 * 1) (els 1)) (j + 4 * 2) (els 2)

/-- One outer iteration of `Mat3.solve` (pivot fix-up, then, if the pivot is
nonzero, elimination of the rows below). -/
def gaussStep (eqns : ℕ → α) (i : ℕ) : ℕ → α :=
  let eqns1 := pivotFix eqns i
  if JsArith.isZero (eqns1 (i + 4 * i)) then eqns1
  else ((List.range 3).drop (i + 1)).foldl (elimRow i) eqns1

/-- The raw computation of `Mat3.solve`: forward elimination for
`i = 0, 1, 2` followed by back substitution.  Returns the solution triple
`(x, y, z)` before the NaN/Infinity check of the source. -/
def mat3SolveRaw (elements : ℕ → α) (bx By bz : α) : α × α × α :=
  let e0 := eqnsInit elements bx By bz
  let e3 := gaussStep (gaussStep (gaussStep e0 0) 1) 2
  let z := JsArith.div (e3 11) (e3 10)
  let y := JsArith.div (JsArith.sub (e3 7) (JsArith.mul (e3 6) z)) (e3 5)
  let x := JsArith.div
    (JsArith.sub (JsArith.sub (e3 3) (JsArith.mul (e3 2) z)) (JsArith.mul (e3 1) y))
    (e3 0)
  (x, y, z)

/-!
## IEEE special values

`F` models a JavaScript number as either an exact rational, `+Infinity`,
`-Infinity` or `NaN`.  Finite arithmetic is exact (the traces proved about
stay far from f32 overflow and use only exactly representable values), and
the special values follow IEEE-754 / JavaScript semantics.  Signed zero is
identified with zero; no operation below distinguishes them on the traces
used (the one place the sign of a zero divisor matters, `q / 0`, takes the
`+0` branch, matching the literal `0` entries of the inputs considered).
-/

/-- A JavaScript number: exact rational, `+Infinity`, `-Infinity` or `NaN`. -/
inductive F where
  | num (q : ℚ)
  | inf
  | ninf
  | nan
deriving DecidableEq, Repr

namespace F

/-- IEEE addition. -/
def add : F → F → F
  | nan, _ => nan
  | _, nan => nan
  | inf, ninf => nan
  | ninf, inf => nan
  | inf, _ => inf
  | _, inf => inf
  | ninf, _ => ninf
  | _, ninf => ninf
  | num a, num b => num (a + b)

/-- IEEE negation. -/
def neg : F → F
  | nan => nan
  | inf => ninf
  | ninf => inf
  | num q => num (-q)

/-- IEEE subtraction (`a - b = a + (-b)` exactly). -/
def sub (a b : F) : F := add a (neg b)

/-- IEEE multiplication (`Infinity * 0 = NaN`). -/
def mul : F → F → F
  | nan, _ => nan
  | _, nan => nan
  | inf, inf => inf
  | inf, ninf => ninf
  | ninf, inf => ninf
  | ninf, ninf => inf
  | inf, num q => if 0 < q then inf else if q < 0 then ninf else nan
  | num q, inf => if 0 < q then inf else if q < 0 then ninf else nan
  | ninf, num q => if 0 < q then ninf else if q < 0 then inf else nan
  | num q, ninf => if 0 < q then ninf else if q < 0 then inf else nan
  | num a, num b => num (a * b)

/-- IEEE division (`a / 0` is a signed infinity for `a ≠ 0` and `NaN` for
`a = 0`; an infinity divided by an infinity is `NaN`; a finite number divided
by an infinity is zero). -/
def div : F → F → F
  | nan, _ => nan
  | _, nan => nan
  | inf, inf => nan
  | inf, ninf => nan
  | ninf, inf => nan
  | ninf, ninf => nan
  | inf, num q => if q < 0 then ninf else inf
  | ninf, num q => if q < 0 then inf else ninf
  | num _, inf => num 0
  | num _, ninf => num 0
  | num a, num b =>
    if b = 0 then (if 0 < a then inf else if a < 0 then ninf else nan)
    else num (a / b)

/-- The JavaScript test `x == 0` (false on NaN and both infinities). -/
def isZeroB : F → Bool
  | num q => q = 0
  | _ => false

/-- The JavaScript test `isNaN(x)`. -/
def isNaNB : F → Bool
  | nan => true
  | _ => false

/-- The JavaScript test `x == Infinity` — note this is true only for
POSITIVE infinity (`-Infinity == Infinity` is false). -/
def eqPosInf : F → Bool
  | inf => true
  | _ => false

/-- Whether the value is an infinity of either sign. -/
def isInfB : F → Bool
  | inf => true
  | ninf => true
  | _ => false

end F

instance : JsArith F where
  zero := F.num 0
  add := F.add
  sub := F.sub
  mul := F.mul
  div := F.div
  isZero := F.isZeroB

/-- The singularity check of `Mat3.solve`, literally:
`isNaN(x) || isNaN(y) || isNaN(z) || x==Infinity || y==Infinity || z==Infinity`. -/
def solveThrows (v : F × F × F) : Bool :=
  v.1.isNaNB || v.2.1.isNaNB || v.2.2.isNaNB ||
  v.1.eqPosInf || v.2.1.eqPosInf || v.2.2.eqPosInf

/-- `CANNON.Mat3.prototype.solve` over the special-value model: the raw
Gaussian computation followed by the source's NaN/Infinity check, which
throws (`Except.error`) exactly when the check fires. -/
def mat3SolveF (elements : ℕ → F) (bx By bz : F) : Except String (F × F × F) :=
  let v := mat3SolveRaw elements bx By bz
  if solveThrows v then .error "Could not solve equation!" else .ok v

/-!
## The first-contact impulse handler (CANNON.World.prototype._addImpulse)

3x3 matrices are their column-major 9-element `elements` arrays, modelled as
functions.  The rational instance of the Gaussian solve is used: on the
traces proved about, every divisor is nonzero, so exact arithmetic and IEEE
arithmetic agree (the NaN/Infinity throw of `Mat3.solve` cannot fire; it is
modelled separately by `mat3SolveF`).
-/

/-- CANNON.Vec3.prototype.crossmat: the elements array
`[0, -z, y,  z, 0, -x,  -y, x, 0]`. -/
def crossmat (v : V3) : ℕ → ℚ := fun idx =>
  if idx = 1 then -v.z else if idx = 2 then v.y
  else if idx = 3 then v.z else if idx = 5 then -v.x
  else if idx = 6 then -v.y else if idx = 7 then v.x
  else 0

/-- A diagonal Mat3 `[d,0,0, 0,d,0, 0,0,d]` (as built inline by
`_addImpulse` for the inverse inertia and collision matrices). -/
def diag3 (d : ℚ) : ℕ → ℚ := fun idx =>
  if idx = 0 ∨ idx = 4 ∨ idx = 8 then d else 0

/-- CANNON.Mat3.prototype.mmult, transcribed literally — including the
source's `this.elements[i+k]` indexing (instead of `i+k*3`) in the inner
product. -/
def mmult (a b : ℕ → ℚ) : ℕ → ℚ := fun idx =>
  let i := idx % 3
  let j := idx / 3
  a (i + 0) * b (0 + 3 * j) + a (i + 1) * b (1 + 3 * j) + a (i + 2) * b (2 + 3 * j)

/-- The per-body world arrays `_addImpulse` touches. -/
structure ImpulseWorld where
  invm : ℕ → ℚ
  inertiax : ℕ → ℚ
  vx : ℕ → ℚ
  vy : ℕ → ℚ
  vz : ℕ → ℚ
  wx : ℕ → ℚ
  wy : ℕ → ℚ
  wz : ℕ → ℚ

/-- The impulse solved for by `_addImpulse`: `J = K.solve(v_f - u)` with
`K = (1/m_i + 1/m_j) * I3` (the `K -= rIr_i + rIr_j` correction is commented
out in the source, so `K` stays diagonal). -/
def addImpulseJ (w : ImpulseWorld) (i j : ℕ) (ui ni : V3) (e : ℚ) : V3 :=
  let im := w.invm i + w.invm j
  let K := diag3 im
  let v_f := ni.mult (-e * ui.dot ni)
  let b := v_f.vsub ui
  let s := mat3SolveRaw (α := ℚ) K b.x b.y b.z
  ⟨s.1, s.2.1, s.2.2⟩

/-- CANNON.World.prototype._addImpulse.  The friction branch is dead code
(the source overwrites `mu` with `0.0` — "quick fix" — right before testing
`mu > 0`) and is omitted; the angular-velocity application (source lines
1367-1376) is commented out, so the `w*` arrays are returned untouched.
Note the velocity updates: `vx[i] += J.x*imi - (vx[j] - ui.x)` and then
`vx[j] -= J.x*imj - (vx[i] - ui.x)` where `vx[i]` is already the updated
value. -/
def addImpulse (w : ImpulseWorld) (i j : ℕ) (ri rj ui ni : V3) (e _mu : ℚ) :
    ImpulseWorld :=
  let ri_star := crossmat ri
  let rj_star := crossmat rj
  let ii_i := if 0 < w.inertiax i then 1 / w.inertiax i else 0
  let Iinv_i := diag3 ii_i
  let ii_j := if 0 < w.inertiax j then 1 / w.inertiax j else 0
  let Iinv_j := diag3 ii_j
  let _rIr_i := mmult ri_star (mmult Iinv_i ri_star)
  let _rIr_j := mmult rj_star (mmult Iinv_j rj_star)
  -- `K.elements[el] -= rIr_i.elements[el] + rIr_j.elements[el]` is commented
  -- out in the source; K remains diagonal inside addImpulseJ
  let J := addImpulseJ w i j ui ni e
  let imi := w.invm i
  let imj := w.invm j
  let vx1 := updA w.vx i (w.vx i + (J.x * imi - (w.vx j - ui.x)))
  let vy1 := updA w.vy i (w.vy i + (J.y * imi - (w.vy j - ui.y)))
  let vz1 := updA w.vz i (w.vz i + (J.z * imi - (w.vz j - ui.z)))
  let vx2 := updA vx1 j (vx1 j - (J.x * imj - (vx1 i - ui.x)))
  let vy2 := updA vy1 j (vy1 j - (J.y * imj - (vy1 i - ui.y)))
  let vz2 := updA vz1 j (vz1 j - (J.z * imj - (vz1 i - ui.z)))
  let cr := ri.cross J
  let _wadd := cr.mult (1 / w.inertiax i)
  -- the additions of `wadd` to `wx/wy/wz` are commented out in the source
  { w with vx := vx2, vy := vy2, vz := vz2 }

/-!
## The SPOOK projected Gauss-Seidel solver (CANNON.Solver.prototype.solve)

`addConstraint` pushes, for each of the 12 degrees of freedom of a row, the
row's `lower`/`upper` bounds and the flags `haslower = !isNaN(lower)`,
`hasupper = !isNaN(upper)`.  Every in-engine call passes the string `'inf'`
as `upper`; `isNaN('inf')` is true (so `hasupper` entries are `false`) and
every numeric comparison against `'inf'` is false.  `upper` is therefore
modelled as `Option ℚ`, with `none` standing for `'inf'` (or any
non-numeric bound): comparisons against `none` are false and `hasupper`
for such an entry is `false`.
-/

/-- Solver row data after `addConstraint` calls.  `G`, `MinvTrace`, `q`,
`qdot`, `Fext` hold 12 entries per row at `12*l + 0..11`; the bound arrays
are indexed at `l` by `solve` (the source pushes 12 copies per row, so for
the systems considered — all rows sharing one bound — index `l` reads the
intended value). -/
structure SolverState where
  n : ℕ
  G : ℕ → ℚ
  MinvTrace : ℕ → ℚ
  q : ℕ → ℚ
  qdot : ℕ → ℚ
  Fext : ℕ → ℚ
  lower : ℕ → ℚ
  upper : ℕ → Option ℚ
  haslower : ℕ → Bool
  hasupper : ℕ → Bool
  bodyi : ℕ → ℕ
  bodyj : ℕ → ℕ
  a : ℚ
  b : ℚ
  eps : ℚ
  h : ℚ

/-- The solver scratch (`vxlambda` … `wzlambda`) together with the
per-row multipliers `lambda`. -/
structure Lambdas where
  vxl : ℕ → ℚ
  vyl : ℕ → ℚ
  vzl : ℕ → ℚ
  wxl : ℕ → ℚ
  wyl : ℕ → ℚ
  wzl : ℕ → ℚ
  lam : ℕ → ℚ

/-- Sum of `f 0 + f 1 + … + f 11` (the 12-DoF inner loops of `solve`). -/
def sum12 (f : ℕ → ℚ) : ℚ :=
  f 0 + f 1 + f 2 + f 3 + f 4 + f 5 + f 6 + f 7 + f 8 + f 9 + f 10 + f 11

/-- `G_Minv_Gt` of row `l` (precomputed once per solver run; the `precomp`
flag of the source only memoizes this value). -/
def rowGMG (S : SolverState) (l : ℕ) : ℚ :=
  sum12 (fun i => S.G (12 * l + i) * S.MinvTrace (12 * l + i) * S.G (12 * l + i))

/-- `c[l] = 1 / (G_Minv_Gt + eps)`. -/
def rowC (S : SolverState) (l : ℕ) : ℚ := 1 / (rowGMG S l + S.eps)

/-- `B[l] = -a*Gq - b*GW - h*GMinvf`. -/
def rowB (S : SolverState) (l : ℕ) : ℚ :=
  let Gq := sum12 (fun i => S.G (12 * l + i) * S.q (12 * l + i))
  let GW := sum12 (fun i => S.G (12 * l + i) * S.qdot (12 * l + i))
  let GMinvf := sum12 (fun i =>
    S.G (12 * l + i) * S.MinvTrace (12 * l + i) * S.Fext (12 * l + i))
  (-S.a * Gq - S.b * GW - S.h * GMinvf)

/-- The source's upper-clamp test `this.hasupper && lambda[l] > this.upper[l]`:
`this.hasupper` is the ARRAY, which is always truthy in JavaScript, so the
per-row flag is never consulted; only the comparison against `upper[l]`
remains (false when the bound is the string `'inf'`, i.e. `none`). -/
def hasupperTruthy : Bool := true

/-- One row update of the Gauss-Seidel sweep, transcribed from `solve`
(including the clamping section, where the source assigns `lambda[l]`
BEFORE computing `dlambda[l] = bound - lambda[l]`, making the applied
`dlambda` zero). -/
def sweepRow (S : SolverState) (st : Lambdas) (l : ℕ) : Lambdas :=
  let bi := S.bodyi l
  let bj := S.bodyj l
  let l12 := 12 * l
  let Gul :=
    S.G (0 + l12) * st.vxl bi + S.G (1 + l12) * st.vyl bi +
    S.G (2 + l12) * st.vzl bi + S.G (3 + l12) * st.wxl bi +
    S.G (4 + l12) * st.wyl bi + S.G (5 + l12) * st.wzl bi +
    S.G (6 + l12) * st.vxl bj + S.G (7 + l12) * st.vyl bj +
    S.G (8 + l12) * st.vzl bj + S.G (9 + l12) * st.wxl bj +
    S.G (10 + l12) * st.wyl bj + S.G (11 + l12) * st.wzl bj
  let dl0 := rowC S l * (rowB S l - Gul - S.eps * st.lam l)
  let lam1 := st.lam l + dl0
  -- if(this.haslower[l] && lambda[l] < this.lower[l])
  let p1 : ℚ × ℚ :=
    if S.haslower l && decide (lam1 < S.lower l) then
      (S.lower l, S.lower l - S.lower l)
    else (lam1, dl0)
  -- if(this.hasupper && lambda[l] > this.upper[l])
  let p2 : ℚ × ℚ :=
    match S.upper l with
    | some u =>
      if hasupperTruthy && decide (u < p1.1) then (u, u - u) else p1
    | none => p1
  let lamF := p2.1
  let dlF := p2.2
  let vxl1 := updA st.vxl bi (st.vxl bi + dlF * S.MinvTrace (l12 + 0) * S.G (l12 + 0))
  let vyl1 := updA st.vyl bi (st.vyl bi + dlF * S.MinvTrace (l12 + 1) * S.G (l12 + 1))
  let vzl1 := updA st.vzl bi (st.vzl bi + dlF * S.MinvTrace (l12 + 2) * S.G (l12 + 2))
  let wxl1 := updA st.wxl bi (st.wxl bi + dlF * S.MinvTrace (l12 + 3) * S.G (l12 + 3))
  let wyl1 := updA st.wyl bi (st.wyl bi + dlF * S.MinvTrace (l12 + 4) * S.G (l12 + 4))
  let wzl1 := updA st.wzl bi (st.wzl bi + dlF * S.MinvTrace (l12 + 5) * S.G (l12 + 5))
  let vxl2 := updA vxl1 bj (vxl1 bj + dlF * S.MinvTrace (l12 + 6) * S.G (l12 + 6))
  let vyl2 := updA vyl1 bj (vyl1 bj + dlF * S.MinvTrace (l12 + 7) * S.G (l12 + 7))
  let vzl2 := updA vzl1 bj (vzl1 bj + dlF * S.MinvTrace (l12 + 8) * S.G (l12 + 8))
  let wxl2 := updA wxl1 bj (wxl1 bj + dlF * S.MinvTrace (l12 + 9) * S.G (l12 + 9))
  let wyl2 := updA wyl1 bj (wyl1 bj + dlF * S.MinvTrace (l12 + 10) * S.G (l12 + 10))
  let wzl2 := updA wzl1 bj (wzl1 bj + dlF * S.MinvTrace (l12 + 11) * S.G (l12 + 11))
  { vxl := vxl2, vyl := vyl2, vzl := vzl2,
    wxl := wxl2, wyl := wyl2, wzl := wzl2,
    lam := updA st.lam l lamF }

/-- `CANNON.Solver.prototype.solve`: `iter` Gauss-Seidel sweeps over the
rows in ascending order, starting from zeroed multipliers and scratch. -/
def solverSolve (S : SolverState) (iter : ℕ) : Lambdas :=
  let init : Lambdas :=
    ⟨fun _ => 0, fun _ => 0, fun _ => 0, fun _ => 0, fun _ => 0, fun _ => 0,
     fun _ => 0⟩
  (List.range iter).foldl
    (fun st _ => (List.range S.n).foldl (sweepRow S) st) init

/-!
## The contact-history matrix (`cmatrix` inside CANNON.World.prototype.step)

`cmatrix(i, j, which)` normalizes its arguments before indexing
`collision_matrix[i + j*N]`: for the current bit (`which == 0`) it swaps
when `i < j`, for the previous bit (`which == -1`) it swaps when `i > j`.
-/

/-- The raw array index `cmatrix` uses for the CURRENT-step bit of the pair
`(i, j)` in an `N`-body world. -/
def cmCurIdx (N i j : ℕ) : ℕ := if i < j then j + i * N else i + j * N

/-- The raw array index `cmatrix` uses for the PREVIOUS-step bit of the pair
`(i, j)` in an `N`-body world. -/
def cmPrevIdx (N i j : ℕ) : ℕ := if j < i then j + i * N else i + j * N

/-- The pair enumeration of the history-rotation loop of `step`:
outer `i` over `0..N-1`, inner `j` over `0..i-1`. -/
def rotatePairs (N : ℕ) : List (ℕ × ℕ) :=
  (List.range N).flatMap (fun i => (List.range i).map (fun j => (i, j)))

/-- The history rotation at the top of `step`: for every pair,
`cmatrix(i,j,-1, cmatrix(i,j,0))` then `cmatrix(i,j,0,0)` — copy the
current bit into the previous slot, then zero the current bit. -/
def rotateHistory (N : ℕ) (cm : ℕ → ℤ) : ℕ → ℤ :=
  (rotatePairs N).foldl (fun cm p =>
    let cur := cm (cmCurIdx N p.1 p.2)
    let cm1 := updA cm (cmPrevIdx N p.1 p.2) cur
    updA cm1 (cmCurIdx N p.1 p.2) 0) cm

/-!
## The box-plane narrowphase corner loop (inside CANNON.World.prototype.step)

The per-corner penetration scalar `q` and the emission loop
`for(idx=0; idx<corners.length && numcontacts<=4; idx++)`, which calls
`solver.addConstraint` once per penetrating corner processed.  The source
normalizes the box quaternion before use (line `quat.normalize()`); exact
normalization is not expressible over the rationals, so the embedding takes
the quaternion already normalized (every caller below passes an exactly
unit quaternion, on which normalization is the identity).
-/

/-- The 8 corner offsets pushed by the box-plane branch, in source order. -/
def boxCorners (ex : V3) : List V3 :=
  [⟨ex.x, ex.y, ex.z⟩, ⟨-ex.x, ex.y, ex.z⟩, ⟨-ex.x, -ex.y, ex.z⟩,
   ⟨-ex.x, -ex.y, -ex.z⟩, ⟨ex.x, -ex.y, -ex.z⟩, ⟨ex.x, ex.y, -ex.z⟩,
   ⟨-ex.x, ex.y, -ex.z⟩, ⟨ex.x, -ex.y, ex.z⟩]

/-- The penetration scalar `q` of one corner: rotate the corner into the
world frame, project onto the plane (`xp`/`n` are the plane's position and
the already-negated normal), and take `qvec ⋅ n` — with the source's
`ri * 0.5` factors. -/
def cornerPenetration (quat : Quat) (xi xp n : V3) (corner : V3) : ℚ :=
  let ri := quat.vmult corner
  let potc : V3 := ⟨xi.x + ri.x * (1/2) - xp.x,
                    xi.y + ri.y * (1/2) - xp.y,
                    xi.z + ri.z * (1/2) - xp.z⟩
  let ptc := n.mult (n.dot potc)
  let xj := xi.vsub ptc
  let qvec : V3 := ⟨xj.x - xi.x - ri.x * (1/2),
                    xj.y - xi.y - ri.y * (1/2),
                    xj.z - xi.z - ri.z * (1/2)⟩
  qvec.dot n

/-- The corner loop's constraint-emission count: the guard
`numcontacts <= 4` is re-checked before each corner, and `numcontacts` is
incremented (and `addConstraint` called) for each processed corner with
`q < 0`. -/
def boxPlaneLoop : List ℚ → ℕ → ℕ
  | [], _ => 0
  | qv :: rest, nc =>
    if nc ≤ 4 then
      if qv < 0 then 1 + boxPlaneLoop rest (nc + 1) else boxPlaneLoop rest nc
    else 0

/-- Number of contact-constraint rows the box-plane branch emits for one
box/plane pair: box at `xi` with half extents `ex` and (unit) orientation
`quat`, plane at `xp` with stored unit normal `planeNormal` (the branch
works with `n = -planeNormal`). -/
def boxPlaneContacts (xi ex : V3) (quat : Quat) (xp planeNormal : V3) : ℕ :=
  let n := planeNormal.negate
  boxPlaneLoop ((boxCorners ex).map (cornerPenetration quat xi xp n)) 0

/-!
## Shapes, rigid bodies and the world's structure-of-arrays

`CANNON.Plane`'s constructor normalizes the given normal (a square root);
the embedding stores the normal as already normalized — every trace below
uses exactly-unit normals, on which normalization is the identity.  The
body's back-reference `_world` is realized by passing the world explicitly
to the getters and setters; `_id = -1` marks a detached body exactly as in
the source.
-/

/-- The shape catalogue (CANNON.Sphere / CANNON.Plane / CANNON.Box). -/
inductive Shape where
  | sphere (radius : ℚ)
  | plane (normal : V3)
  | box (halfExtents : V3)
deriving DecidableEq, Repr

/-- The `type` tags of CANNON.Shape.types (SPHERE:1, PLANE:2, BOX:4). -/
def Shape.typeId : Shape → ℕ
  | .sphere _ => 1
  | .plane _ => 2
  | .box _ => 4

/-- `calculateLocalInertia` of each shape subclass. -/
def Shape.calculateLocalInertia : Shape → ℚ → V3
  | .sphere r, m =>
    let I := 2 * m * r * r / 5
    ⟨I, I, I⟩
  | .plane _, _ => ⟨0, 0, 0⟩
  | .box h, m =>
    ⟨1 / 12 * m * (h.y * h.y + h.z * h.z),
     1 / 12 * m * (h.x * h.x + h.z * h.z),
     1 / 12 * m * (h.y * h.y + h.x * h.x)⟩

/-- The rigid-body record, with exactly the fields the CANNON.RigidBody
constructor assigns (note: the field holding the torque is `_tau`; no field
named `_torque` exists). -/
structure RigidBody where
  _position : V3
  _velocity : V3
  _force : V3
  _tau : V3
  _quaternion : Quat
  _rotvelo : V3
  _mass : ℚ
  _shape : Shape
  _inertia : V3
  _id : ℤ
deriving DecidableEq, Repr

/-- The CANNON.RigidBody constructor: zero vectors, quaternion `(1,0,0,0)`
(the explicit arguments of `new CANNON.Quaternion(1,0,0,0)`), local inertia
from the shape, and `_id = -1` (detached). -/
def mkRigidBody (mass : ℚ) (shape : Shape) : RigidBody where
  _position := ⟨0, 0, 0⟩
  _velocity := ⟨0, 0, 0⟩
  _force := ⟨0, 0, 0⟩
  _tau := ⟨0, 0, 0⟩
  _quaternion := ⟨1, 0, 0, 0⟩
  _rotvelo := ⟨0, 0, 0⟩
  _mass := mass
  _shape := shape
  _inertia := shape.calculateLocalInertia mass
  _id := -1

/-- The world's structure-of-arrays (the fields of CANNON.World that
`add`, the body accessors and `step` use; the `body` back-reference array
is realized by the explicit world argument of the accessors). -/
structure World where
  x : List ℚ
  y : List ℚ
  z : List ℚ
  vx : List ℚ
  vy : List ℚ
  vz : List ℚ
  fx : List ℚ
  fy : List ℚ
  fz : List ℚ
  taux : List ℚ
  tauy : List ℚ
  tauz : List ℚ
  wx : List ℚ
  wy : List ℚ
  wz : List ℚ
  qx : List ℚ
  qy : List ℚ
  qz : List ℚ
  qw : List ℚ
  type : List ℕ
  fixed : List ℕ
  mass : List ℚ
  invm : List ℚ
  inertiax : List ℚ
  inertiay : List ℚ
  inertiaz : List ℚ
  collision_matrix : List ℤ
deriving DecidableEq, Repr

/-- The empty world (no bodies added yet). -/
def emptyWorld : World where
  x := []; y := []; z := []
  vx := []; vy := []; vz := []
  fx := []; fy := []; fz := []
  taux := []; tauy := []; tauz := []
  wx := []; wy := []; wz := []
  qx := []; qy := []; qz := []; qw := []
  type := []; fixed := []
  mass := []; invm := []
  inertiax := []; inertiay := []; inertiaz := []
  collision_matrix := []

/-- CANNON.World.prototype.numObjects: `this.x ? this.x.length : 0`. -/
def World.numObjects (w : World) : ℕ := w.x.length

/-- The array-growing of `World.add`: a fresh array of length `n+1` whose
first `n` entries are copied from the old array and whose last entry comes
from the body being added. -/
def growTo {β : Type} (n : ℕ) (l : List β) (dflt v : β) : List β :=
  (List.range n).map (fun i => l.getD i dflt) ++ [v]

/-- CANNON.World.prototype.add: grow every array by one, copy the body's
detached state into slot `n`, set `fixed[n] = mass <= 0 ? 1 : 0` and
`invm[n] = mass > 0 ? 1/mass : 0`, give the body `_id = n`, and reallocate
the collision matrix zero-filled at `(n+1)^2`.  Returns the updated world
and the (now attached) body. -/
def worldAdd (w : World) (b : RigidBody) : World × RigidBody :=
  let n := w.numObjects
  let w' : World :=
    { x := growTo n w.x 0 b._position.x
      y := growTo n w.y 0 b._position.y
      z := growTo n w.z 0 b._position.z
      vx := growTo n w.vx 0 b._velocity.x
      vy := growTo n w.vy 0 b._velocity.y
      vz := growTo n w.vz 0 b._velocity.z
      fx := growTo n w.fx 0 b._force.x
      fy := growTo n w.fy 0 b._force.y
      fz := growTo n w.fz 0 b._force.z
      taux := growTo n w.taux 0 b._tau.x
      tauy := growTo n w.tauy 0 b._tau.y
      tauz := growTo n w.tauz 0 b._tau.z
      wx := growTo n w.wx 0 b._rotvelo.x
      wy := growTo n w.wy 0 b._rotvelo.y
      wz := growTo n w.wz 0 b._rotvelo.z
      qx := growTo n w.qx 0 b._quaternion.x
      qy := growTo n w.qy 0 b._quaternion.y
      qz := growTo n w.qz 0 b._quaternion.z
      qw := growTo n w.qw 0 b._quaternion.w
      type := growTo n w.type 0 b._shape.typeId
      fixed := growTo n w.fixed 0 (if b._mass ≤ 0 then 1 else 0)
      mass := growTo n w.mass 0 b._mass
      invm := growTo n w.invm 0 (if 0 < b._mass then 1 / b._mass else 0)
      inertiax := growTo n w.inertiax 0 b._inertia.x
      inertiay := growTo n w.inertiay 0 b._inertia.y
      inertiaz := growTo n w.inertiaz 0 b._inertia.z
      collision_matrix := List.replicate ((n + 1) * (n + 1)) 0 }
  (w', { b with _id := (n : ℤ) })

/-- CANNON.World.prototype.clearCollisionState: zero both history planes
for every pair involving the body. -/
def clearCollisionState (w : World) (b : RigidBody) : World :=
  let n := w.numObjects
  let i := b._id.toNat
  let cm' := (List.range n).foldl
    (fun cm j => if j < i then cm.set (j + i * n) 0 else cm.set (i + j * n) 0)
    w.collision_matrix
  { w with collision_matrix := cm' }

/-- CANNON.RigidBody.prototype.setPosition (attached bodies also get their
collision state cleared). -/
def setPosition (b : RigidBody) (w : World) (px py pz : ℚ) :
    RigidBody × World :=
  if b._id ≠ -1 then
    let i := b._id.toNat
    let w1 := { w with x := w.x.set i px, y := w.y.set i py, z := w.z.set i pz }
    (b, clearCollisionState w1 b)
  else ({ b with _position := ⟨px, py, pz⟩ }, w)

/-- CANNON.RigidBody.prototype.setVelocity. -/
def setVelocity (b : RigidBody) (w : World) (ux uy uz : ℚ) :
    RigidBody × World :=
  if b._id ≠ -1 then
    let i := b._id.toNat
    (b, { w with vx := w.vx.set i ux, vy := w.vy.set i uy, vz := w.vz.set i uz })
  else ({ b with _velocity := ⟨ux, uy, uz⟩ }, w)

/-- CANNON.RigidBody.prototype.getVelocity, transcribed literally: the
attached branch reads `this._world.x/y/z` — the POSITION arrays — at the
body's index. -/
def getVelocity (b : RigidBody) (w : World) : V3 :=
  if b._id ≠ -1 then
    ⟨w.x.getD b._id.toNat 0, w.y.getD b._id.toNat 0, w.z.getD b._id.toNat 0⟩
  else b._velocity

/-- CANNON.RigidBody.prototype.setTorque (the detached branch stores into
`this._tau`). -/
def setTorque (b : RigidBody) (w : World) (tx ty tz : ℚ) :
    RigidBody × World :=
  if b._id ≠ -1 then
    let i := b._id.toNat
    (b, { w with taux := w.taux.set i tx, tauy := w.tauy.set i ty,
                 tauz := w.tauz.set i tz })
  else ({ b with _tau := ⟨tx, ty, tz⟩ }, w)

/-- CANNON.RigidBody.prototype.getTorque.  The detached branch reads
`this._torque.x` — but no `_torque` property is ever assigned (the
constructor and `setTorque` use `_tau`), so in JavaScript the property is
`undefined` and the member access throws a TypeError; `none` models that
throw. -/
def getTorque (b : RigidBody) (w : World) : Option V3 :=
  if b._id ≠ -1 then
    some ⟨w.taux.getD b._id.toNat 0, w.tauy.getD b._id.toNat 0,
          w.tauz.getD b._id.toNat 0⟩
  else none

/-- The set branch of CANNON.RigidBody.prototype.mass on an attached body:
`mass[id] = m; invm[id] = 1.0/m` — and nothing else (`fixed` is NOT
updated).  (`1.0/m` is IEEE Infinity at `m = 0`; the traces proved about
use `m ≠ 0`, where exact division agrees.) -/
def massSet (b : RigidBody) (w : World) (m : ℚ) : RigidBody × World :=
  if b._id ≠ -1 then
    let i := b._id.toNat
    (b, { w with mass := w.mass.set i m, invm := w.invm.set i (1 / m) })
  else ({ b with _mass := m }, w)

/-- The mass/fixedness invariant stated by the specification:
`invm[i] == 0` iff `fixed[i] == 1` iff `mass[i] <= 0`, and
`invm[i] * mass[i] == 1` for movable bodies. -/
def massInvariant (w : World) : Prop :=
  ∀ i < w.mass.length,
    ((w.invm.getD i 0 = 0) ↔ (w.fixed.getD i 0 = 1)) ∧
    ((w.fixed.getD i 0 = 1) ↔ (w.mass.getD i 0 ≤ 0)) ∧
    (w.fixed.getD i 0 ≠ 1 → w.invm.getD i 0 * w.mass.getD i 0 = 1)

/-!
## The step pipeline with no broadphase pairs (CANNON.World.prototype.step)

When the broadphase returns no pairs, the narrowphase loop iterates zero
times, `solver.n` stays 0 and the solver-application block is skipped;
the remaining phases are, in order: the contact-history rotation, gravity
accumulation, leapfrog integration of the non-fixed bodies, the force
reset, and the clock update.  The quaternion update of the integration
loop (source lines 2052-2072) reads `qx..qw, wx..wz` and writes only
`qx..qw`; its renormalization involves a square root, so the orientation
arrays are kept out of this state — no other field depends on them.
-/

/-- World state for the no-pairs step (arrays as functions, `n` bodies). -/
structure StepWorld where
  n : ℕ
  x : ℕ → ℚ
  y : ℕ → ℚ
  z : ℕ → ℚ
  vx : ℕ → ℚ
  vy : ℕ → ℚ
  vz : ℕ → ℚ
  fx : ℕ → ℚ
  fy : ℕ → ℚ
  fz : ℕ → ℚ
  taux : ℕ → ℚ
  tauy : ℕ → ℚ
  tauz : ℕ → ℚ
  wx : ℕ → ℚ
  wy : ℕ → ℚ
  wz : ℕ → ℚ
  fixed : ℕ → Bool
  invm : ℕ → ℚ
  mass : ℕ → ℚ
  inertiax : ℕ → ℚ
  inertiay : ℕ → ℚ
  inertiaz : ℕ → ℚ
  gravity : V3
  cm : ℕ → ℤ
  time : ℚ
  stepnumber : ℕ

/-- The integrator's angular update `wx[i] += taux[i] * 1.0 / inertiax[i] * dt`
over the IEEE special-value model (the expression groups as
`((taux * 1.0) / inertiax) * dt`).  In JavaScript `(0 * 1.0) / 0 = NaN`, so a
MOVABLE body with a zero inertia component — e.g. a plane given positive mass,
whose local inertia is `(0,0,0)` — gets a NaN angular velocity even with zero
torque. -/
def leapfrogW (wv tauv inertiav dtv : F) : F :=
  wv.add (((tauv.mul (F.num 1)).div inertiav).mul dtv)

/-- `step(dt)` in the case the broadphase returns no pairs.  The angular
update transcribes `wx[i] += taux[i] * 1.0 / inertiax[i] * dt` with exact
rational division, whose `0/0 = 0` convention differs from IEEE: for a
movable body with a zero inertia component the source computes
`(0/0)*dt = NaN` (see `leapfrogW`).  Theorems about this embedding therefore
assume nonzero inertia components for movable bodies; on that domain exact
and IEEE arithmetic agree. -/
def stepNoPairs (w : StepWorld) (dt : ℚ) : StepWorld :=
  -- transfer old contact data (current bit to previous slot, zero current)
  let cm1 := rotateHistory w.n w.cm
  -- add gravity to all objects: f += gravity * mass
  let fx1 := fun i => if i < w.n then w.fx i + w.gravity.x * w.mass i else w.fx i
  let fy1 := fun i => if i < w.n then w.fy i + w.gravity.y * w.mass i else w.fy i
  let fz1 := fun i => if i < w.n then w.fz i + w.gravity.z * w.mass i else w.fz i
  -- (no pairs: the contact loop and the solver are skipped, solver.n = 0)
  -- leap frog: vnew = v + h*f/m, used immediately for xnew = x + h*vnew;
  -- fixed bodies are skipped entirely
  let active := fun i => i < w.n ∧ w.fixed i = false
  let vx1 := fun i => if active i then w.vx i + fx1 i * w.invm i * dt else w.vx i
  let vy1 := fun i => if active i then w.vy i + fy1 i * w.invm i * dt else w.vy i
  let vz1 := fun i => if active i then w.vz i + fz1 i * w.invm i * dt else w.vz i
  let wx1 := fun i => if active i then w.wx i + w.taux i / w.inertiax i * dt else w.wx i
  let wy1 := fun i => if active i then w.wy i + w.tauy i / w.inertiay i * dt else w.wy i
  let wz1 := fun i => if active i then w.wz i + w.tauz i / w.inertiaz i * dt else w.wz i
  let x1 := fun i => if active i then w.x i + vx1 i * dt else w.x i
  let y1 := fun i => if active i then w.y i + vy1 i * dt else w.y i
  let z1 := fun i => if active i then w.z i + vz1 i * dt else w.z i
  -- (the quaternion update writes only the orientation arrays; see above)
  -- reset all forces and torques
  let fx2 := fun i => if i < w.n then 0 else fx1 i
  let fy2 := fun i => if i < w.n then 0 else fy1 i
  let fz2 := fun i => if i < w.n then 0 else fz1 i
  let taux1 := fun i => if i < w.n then 0 else w.taux i
  let tauy1 := fun i => if i < w.n then 0 else w.tauy i
  let tauz1 := fun i => if i < w.n then 0 else w.tauz i
  { w with
    cm := cm1
    x := x1, y := y1, z := z1
    vx := vx1, vy := vy1, vz := vz1
    wx := wx1, wy := wy1, wz := wz1
    fx := fx2, fy := fy2, fz := fz2
    taux := taux1, tauy := tauy1, tauz := tauz1
    time := w.time + dt
    stepnumber := w.stepnumber + 1 }

/-!
## Concrete instances used by the theorems
-/

set_option maxRecDepth 8000

/-- A Mat3 elements array `[0, -1, 0, 0, 0, 0, 0, 0, 1]` over the
special-value model, the worked singular input for `Mat3.solve`. -/
def els5 : ℕ → F := fun i =>
  if i = 1 then F.num (-1) else if i = 8 then F.num 1 else F.num 0

/-- A two-body impulse scenario: both bodies with inverse mass 1 and unit
inertia; body 0 at rest, body 1 moving at `vx = 5`. -/
def impW1 : ImpulseWorld where
  invm := fun _ => 1
  inertiax := fun _ => 1
  vx := fun i => if i = 0 then 0 else 5
  vy := fun _ => 0
  vz := fun _ => 0
  wx := fun _ => 0
  wy := fun _ => 0
  wz := fun _ => 0

/-- A one-row solver system between bodies 0 and 1: Jacobian and inverse-mass
trace concentrated on the first degree of freedom, `qdot` giving `B = -1`,
unit SPOOK parameters, lower bound `1` (numeric, so `haslower` is true) and
upper bound `'inf'`. -/
def solv2 : SolverState where
  n := 1
  G := fun idx => if idx = 0 then 1 else 0
  MinvTrace := fun idx => if idx = 0 then 1 else 0
  q := fun _ => 0
  qdot := fun idx => if idx = 0 then 1 else 0
  Fext := fun _ => 0
  lower := fun _ => 1
  upper := fun _ => none
  haslower := fun _ => true
  hasupper := fun _ => false
  bodyi := fun _ => 0
  bodyj := fun _ => 1
  a := 1
  b := 1
  eps := 1
  h := 1

/-- A detached body given position `(1,2,3)` and velocity `(4,5,6)`, then
added to an empty world. -/
def c8pair1 : RigidBody × World :=
  setPosition (mkRigidBody 1 (Shape.sphere 1)) emptyWorld 1 2 3

/-- Second accessor step of the `getVelocity` scenario. -/
def c8pair2 : RigidBody × World := setVelocity c8pair1.1 c8pair1.2 4 5 6

/-- The world/body pair after `World.add` in the `getVelocity` scenario. -/
def c8add : World × RigidBody := worldAdd c8pair2.2 c8pair2.1

/-- A one-body world whose body is FIXED (mass 0) but carries the stored
linear velocity `vx = 1`; gravity, forces and torques all zero. -/
def c7fixedWorld : StepWorld where
  n := 1
  x := fun _ => 0; y := fun _ => 0; z := fun _ => 0
  vx := fun _ => 1; vy := fun _ => 0; vz := fun _ => 0
  fx := fun _ => 0; fy := fun _ => 0; fz := fun _ => 0
  taux := fun _ => 0; tauy := fun _ => 0; tauz := fun _ => 0
  wx := fun _ => 0; wy := fun _ => 0; wz := fun _ => 0
  fixed := fun _ => true
  invm := fun _ => 0; mass := fun _ => 0
  inertiax := fun _ => 0; inertiay := fun _ => 0; inertiaz := fun _ => 0
  gravity := ⟨0, 0, 0⟩
  cm := fun _ => 0
  time := 0
  stepnumber := 0

/-- A one-body world with a movable unit-mass body at `x = 3` moving at
`vx = 2`; gravity, forces and torques all zero. -/
def c7movingWorld : StepWorld where
  n := 1
  x := fun _ => 3; y := fun _ => 0; z := fun _ => 0
  vx := fun _ => 2; vy := fun _ => 0; vz := fun _ => 0
  fx := fun _ => 0; fy := fun _ => 0; fz := fun _ => 0
  taux := fun _ => 0; tauy := fun _ => 0; tauz := fun _ => 0
  wx := fun _ => 0; wy := fun _ => 0; wz := fun _ => 0
  fixed := fun _ => false
  invm := fun _ => 1; mass := fun _ => 1
  inertiax := fun _ => 1; inertiay := fun _ => 1; inertiaz := fun _ => 1
  gravity := ⟨0, 0, 0⟩
  cm := fun _ => 0
  time := 0
  stepnumber := 0

/-!
## Helper lemmas
-/

/-- `getD` of a one-element append at the length of the prefix. -/
theorem getD_concat {β : Type} (l : List β) (a d : β) :
    (l ++ [a]).getD l.length d = a := by
  induction l with
  | nil => rfl
  | cons x xs ih => simp [List.getD, ih]

/-- The freshly appended slot of a grown world array holds the new value. -/
theorem getD_growTo {β : Type} (n : ℕ) (l : List β) (dflt v : β) :
    (growTo n l dflt v).getD n dflt = v := by
  have h : ((List.range n).map (fun i => l.getD i dflt)).length = n := by simp
  calc (growTo n l dflt v).getD n dflt
      = (growTo n l dflt v).getD
          ((List.range n).map (fun i => l.getD i dflt)).length dflt := by rw [h]
    _ = v := getD_concat _ _ _

/-!
## The claims
-/

/-- C1: the claim says the impulse handler changes the linear velocities by
exactly `Δv_i = +J/m_i` and `Δv_j = -J/m_j` and leaves angular velocities
unchanged.  The code violates the linear part (contradicting its own
comment `vi = vi + J/mi`): it executes
`vx[i] += J.x*imi - (vx[j] - ui.x)` (and the `j`-update reads the already
updated `vx[i]`).  Here: with both inverse masses 1, `u = n = (1,0,0)`,
`e = 1/2`, the solved impulse is `J = (-3/4, 0, 0)`, so the claim predicts
`vx[0] = -3/4`, but the handler produces `vx[0] = -19/4`.  The angular
velocities are indeed left unchanged (the angular application is commented
out). -/
theorem c1_addImpulse_velocity_update :
    (addImpulse impW1 0 1 ⟨0,0,0⟩ ⟨0,0,0⟩ ⟨1,0,0⟩ ⟨1,0,0⟩ (1/2) (3/10)).vx 0 = -19/4 ∧
    addImpulseJ impW1 0 1 ⟨1,0,0⟩ ⟨1,0,0⟩ (1/2) = ⟨-3/4, 0, 0⟩ ∧
    impW1.vx 0 + (addImpulseJ impW1 0 1 ⟨1,0,0⟩ ⟨1,0,0⟩ (1/2)).x * impW1.invm 0 = -3/4 ∧
    ((-19/4 : ℚ) ≠ -3/4) ∧
    (addImpulse impW1 0 1 ⟨0,0,0⟩ ⟨0,0,0⟩ ⟨1,0,0⟩ ⟨1,0,0⟩ (1/2) (3/10)).wx 0 = impW1.wx 0 ∧
    (addImpulse impW1 0 1 ⟨0,0,0⟩ ⟨0,0,0⟩ ⟨1,0,0⟩ ⟨1,0,0⟩ (1/2) (3/10)).wx 1 = impW1.wx 1 := by
  refine ⟨?_, ?_, ?_, by norm_num, ?_, ?_⟩ <;>
  norm_num [addImpulse, addImpulseJ, mat3SolveRaw, gaussStep, pivotFix,
    elimRow, eqnsInit, updA, impW1, diag3, crossmat, mmult, V3.mult, V3.dot,
    V3.vsub, V3.cross, JsArith.isZero, JsArith.add, JsArith.sub,
    JsArith.mul, JsArith.div, JsArith.zero, List.range_succ, List.filter,
    V3.mk.injEq]

/-- C2: the claim says that on clamping, the stored multiplier becomes the
clamped value (true), the velocity correction uses
`Δλ = λ_new - λ_preclamp` (false: the source assigns `lambda[l]` before
computing `dlambda[l] = bound - lambda[l]`, so the applied `Δλ` is 0), and
that the upper clamp consults `hasupper[l]` (false: the source reads the
always-truthy array `this.hasupper`).  On the one-row system `solv2` — whose
Gauss-Seidel update `λ = -1/2` falls below the lower bound 1 — after one
sweep the stored multiplier is the clamped 1, but the scratch velocity
`vxlambda[0]` stays 0, whereas the specified `Δλ = λ_new - λ_old = 1` would
have added `1 * Minv * G = 1`. -/
theorem c2_solver_clamp_zero_dlambda :
    (solverSolve solv2 1).lam 0 = 1 ∧
    (solverSolve solv2 1).vxl 0 = 0 ∧
    (1 - 0) * solv2.MinvTrace 0 * solv2.G 0 = 1 ∧
    ((0 : ℚ) ≠ 1) := by
  refine ⟨?_, ?_, by norm_num [solv2], by norm_num⟩ <;>
  norm_num [solverSolve, sweepRow, rowC, rowB, rowGMG, sum12, updA, solv2,
    hasupperTruthy, List.range_succ]

/-- C3 (counterexample): in a 2-body world the current-step bit of the pair
`(i,j) = (0,1)` is written at raw index 1 — not at `i + j*N = 2` as the
claim states. -/
theorem c3_counterexample :
    cmCurIdx 2 0 1 = 1 ∧ 0 + 1 * 2 = 2 ∧ (1 : ℕ) ≠ 2 := by decide

/-- C3 (amended): for a pair `(i,j)` with `i < j` the CURRENT-step bit is
stored at `collision_matrix[j + i*N]` and the PREVIOUS-step bit at
`collision_matrix[i + j*N]` — the transpose of the claimed layout; and the
step driver's history rotation (shown for `N = 2`) copies the current bit
into the previous slot and zeroes the current slot at those indices. -/
theorem c3_cmatrix_layout :
    (∀ N i j : ℕ, i < j → cmCurIdx N i j = j + i * N ∧ cmPrevIdx N i j = i + j * N) ∧
    (∀ cm : ℕ → ℤ, rotateHistory 2 cm (cmPrevIdx 2 0 1) = cm (cmCurIdx 2 0 1) ∧
      rotateHistory 2 cm (cmCurIdx 2 0 1) = 0) := by
  constructor
  · intro N i j h
    constructor
    · simp [cmCurIdx, h]
    · simp [cmPrevIdx, Nat.lt_asymm h]
  · intro cm
    constructor
    · simp [rotateHistory, rotatePairs, cmCurIdx, cmPrevIdx, updA, List.range_succ]
    · simp [rotateHistory, rotatePairs, cmCurIdx, cmPrevIdx, updA, List.range_succ]

/-- Witness for C3's amended layout theorem at `N = 3`, `(i,j) = (0,1)`. -/
theorem c3_cmatrix_layout_witness :
    cmCurIdx 3 0 1 = 1 + 0 * 3 ∧ cmPrevIdx 3 0 1 = 0 + 1 * 3 :=
  c3_cmatrix_layout.1 3 0 1 (by decide)

/-- C4: the claim (and the source's own comment "max 4 corners against
plane") says at most 4 contacts are emitted per box/plane pair; but the
loop guard `numcontacts <= 4` admits a fifth emission.  For a unit box 10
units below a ground plane — all 8 rotated corners penetrate — the branch
emits 5 constraint rows. -/
theorem c4_boxplane_five_contacts :
    boxPlaneContacts ⟨0, -10, 0⟩ ⟨1, 1, 1⟩ ⟨0, 0, 0, 1⟩ ⟨0, 0, 0⟩ ⟨0, 1, 0⟩ = 5 ∧
    ¬ (boxPlaneContacts ⟨0, -10, 0⟩ ⟨1, 1, 1⟩ ⟨0, 0, 0, 1⟩ ⟨0, 0, 0⟩ ⟨0, 1, 0⟩ ≤ 4) := by
  constructor <;>
  norm_num [boxPlaneContacts, boxPlaneLoop, boxCorners, cornerPenetration,
    Quat.vmult, V3.negate, V3.mult, V3.dot, V3.vsub]

/-- C5 (counterexample): on the system `els5 / b = (0,-1,-1)` the computed
solution is `(-Infinity, -Infinity, -1)` — it contains infinite components
(of negative sign), yet `Mat3.solve` returns it WITHOUT raising, because
the source's check `x == Infinity` only detects positive infinity. -/
theorem c5_counterexample :
    mat3SolveF els5 (F.num 0) (F.num (-1)) (F.num (-1)) =
      .ok (F.ninf, F.ninf, F.num (-1)) ∧
    F.isInfB F.ninf = true ∧ F.eqPosInf F.ninf = false ∧
    F.isNaNB F.ninf = false := by
  refine ⟨?_, rfl, rfl, rfl⟩
  norm_num [mat3SolveF, mat3SolveRaw, gaussStep, pivotFix, elimRow, eqnsInit,
    updA, els5, solveThrows, F.add, F.sub, F.mul, F.div, F.neg, F.isZeroB,
    F.isNaNB, F.eqPosInf, JsArith.isZero, JsArith.add, JsArith.sub,
    JsArith.mul, JsArith.div, JsArith.zero, List.range_succ, List.filter]

/-- C5 (amended): `Mat3.solve` raises exactly when the computed solution
vector contains NaN or POSITIVE infinity; a solution containing only
negative infinities (and otherwise finite entries) is returned without
raising. -/
theorem c5_error_iff_nan_or_posinf :
    ∀ (els : ℕ → F) (bx By bz : F),
      (∃ e, mat3SolveF els bx By bz = .error e) ↔
        ((mat3SolveRaw els bx By bz).1.isNaNB ||
         (mat3SolveRaw els bx By bz).2.1.isNaNB ||
         (mat3SolveRaw els bx By bz).2.2.isNaNB ||
         (mat3SolveRaw els bx By bz).1.eqPosInf ||
         (mat3SolveRaw els bx By bz).2.1.eqPosInf ||
         (mat3SolveRaw els bx By bz).2.2.eqPosInf) = true := by
  intro els bx By bz
  by_cases h : solveThrows (mat3SolveRaw els bx By bz) = true
  · simp only [mat3SolveF, h, if_true]
    constructor
    · intro _
      simpa [solveThrows] using h
    · intro _
      exact ⟨_, rfl⟩
  · simp only [mat3SolveF, h, if_false]
    constructor
    · rintro ⟨e, he⟩
      cases he
    · intro hv
      exact absurd (by simpa [solveThrows] using hv) h

/-- C6: the claim says the mass/fixedness invariant
(`invm == 0` iff `fixed == 1` iff `mass <= 0`, `invm*mass == 1` for
movable bodies) holds after every world operation including the mass
setter.  It holds after `World.add` of a mass-0 body, but the attached
mass setter updates only `mass` and `invm`: after `body.mass(1)` the body
has `mass = 1 > 0` and `invm = 1` while `fixed` is still 1, violating the
invariant. -/
theorem c6_mass_setter_breaks_invariant :
    massInvariant (worldAdd emptyWorld (mkRigidBody 0 (Shape.sphere 1))).1 ∧
    ¬ massInvariant (massSet (worldAdd emptyWorld (mkRigidBody 0 (Shape.sphere 1))).2
        (worldAdd emptyWorld (mkRigidBody 0 (Shape.sphere 1))).1 1).2 := by
  constructor
  · intro i hi
    have hz : i = 0 := by
      simpa [worldAdd, growTo, mkRigidBody, emptyWorld, World.numObjects] using hi
    subst hz
    norm_num [worldAdd, growTo, mkRigidBody, emptyWorld, World.numObjects]
  · intro h
    have h0 := h 0 (by
      norm_num [massSet, worldAdd, growTo, mkRigidBody, emptyWorld, World.numObjects])
    norm_num [massSet, worldAdd, growTo, mkRigidBody, emptyWorld,
      World.numObjects] at h0

/-- C7 (counterexample): the claim fails on two fronts.  First, a world
whose single body is fixed but carries stored velocity `vx = 1` — with no
pairs, zero gravity and zero forces — keeps its position at 0 after
`step(1)`, whereas the claim (position advances by exactly `v*dt` for every
body) predicts 1.  Second, for a MOVABLE body with a zero inertia component
(e.g. a plane given mass 1, local inertia `(0,0,0)`) the integrator's
angular update `wx += taux * 1.0 / inertiax * dt` evaluates, in IEEE
arithmetic with zero torque, to `wx + (0/0)*dt = NaN` — the angular
velocity is NOT left unchanged. -/
theorem c7_counterexample :
    ((stepNoPairs c7fixedWorld 1).x 0 = 0 ∧
     c7fixedWorld.x 0 + c7fixedWorld.vx 0 * 1 = 1 ∧
     ((0 : ℚ) ≠ 1)) ∧
    (leapfrogW (F.num 0) (F.num 0) (F.num 0) (F.num 1) = F.nan ∧
     F.nan ≠ F.num 0) := by
  refine ⟨⟨?_, by norm_num [c7fixedWorld], by norm_num⟩, ?_, by decide⟩
  · norm_num [stepNoPairs, c7fixedWorld]
  · norm_num [leapfrogW, F.add, F.mul, F.div]

/-- C7 (amended): with no broadphase pairs, zero gravity, zero accumulated
forces and torques, and every MOVABLE body having nonzero inertia
components (`hI` — excluding the zero-inertia case, where the source's
IEEE integrator produces NaN angular velocity, see `c7_counterexample`,
and where exact division would not model the source), `step(dt)` leaves
every body's linear and angular velocity unchanged; every non-fixed body's
position advances by exactly `v*dt`, while fixed bodies (skipped by the
integrator) keep their positions.  On the domain `hI` carves out, the
embedding's exact arithmetic agrees with the source's IEEE arithmetic:
every division `0 / I` has `I ≠ 0`. -/
theorem c7_step_no_pairs (w : StepWorld) (dt : ℚ)
    (hg : w.gravity = ⟨0, 0, 0⟩)
    (hf : ∀ i, w.fx i = 0 ∧ w.fy i = 0 ∧ w.fz i = 0)
    (ht : ∀ i, w.taux i = 0 ∧ w.tauy i = 0 ∧ w.tauz i = 0)
    (hI : ∀ i, i < w.n → w.fixed i = false →
      w.inertiax i ≠ 0 ∧ w.inertiay i ≠ 0 ∧ w.inertiaz i ≠ 0) :
    ∀ i, i < w.n →
      ((stepNoPairs w dt).vx i = w.vx i ∧ (stepNoPairs w dt).vy i = w.vy i ∧
       (stepNoPairs w dt).vz i = w.vz i ∧ (stepNoPairs w dt).wx i = w.wx i ∧
       (stepNoPairs w dt).wy i = w.wy i ∧ (stepNoPairs w dt).wz i = w.wz i) ∧
      (w.fixed i = false →
        (stepNoPairs w dt).x i = w.x i + w.vx i * dt ∧
        (stepNoPairs w dt).y i = w.y i + w.vy i * dt ∧
        (stepNoPairs w dt).z i = w.z i + w.vz i * dt) ∧
      (w.fixed i = true →
        (stepNoPairs w dt).x i = w.x i ∧ (stepNoPairs w dt).y i = w.y i ∧
        (stepNoPairs w dt).z i = w.z i) := by
  intro i hi
  obtain ⟨hfx, hfy, hfz⟩ := hf i
  obtain ⟨htx, hty, htz⟩ := ht i
  cases hfix : w.fixed i with
  | false =>
    have _hmov := hI i hi hfix
    simp [stepNoPairs, hi, hfix, hfx, hfy, hfz, htx, hty, htz, hg]
  | true =>
    simp [stepNoPairs, hi, hfix, hfx, hfy, hfz, htx, hty, htz, hg]

/-- Witness for the amended C7 theorem on the concrete one-body movable
world `c7movingWorld` with `dt = 1`. -/
theorem c7_step_no_pairs_witness :
    c7movingWorld.gravity = ⟨0, 0, 0⟩ ∧
    (∀ i, c7movingWorld.fx i = 0 ∧ c7movingWorld.fy i = 0 ∧ c7movingWorld.fz i = 0) ∧
    (∀ i, c7movingWorld.taux i = 0 ∧ c7movingWorld.tauy i = 0 ∧ c7movingWorld.tauz i = 0) ∧
    (∀ i, i < c7movingWorld.n → c7movingWorld.fixed i = false →
      c7movingWorld.inertiax i ≠ 0 ∧ c7movingWorld.inertiay i ≠ 0 ∧
      c7movingWorld.inertiaz i ≠ 0) ∧
    0 < c7movingWorld.n ∧
    (((stepNoPairs c7movingWorld 1).vx 0 = c7movingWorld.vx 0 ∧
      (stepNoPairs c7movingWorld 1).vy 0 = c7movingWorld.vy 0 ∧
      (stepNoPairs c7movingWorld 1).vz 0 = c7movingWorld.vz 0 ∧
      (stepNoPairs c7movingWorld 1).wx 0 = c7movingWorld.wx 0 ∧
      (stepNoPairs c7movingWorld 1).wy 0 = c7movingWorld.wy 0 ∧
      (stepNoPairs c7movingWorld 1).wz 0 = c7movingWorld.wz 0) ∧
     (c7movingWorld.fixed 0 = false →
       (stepNoPairs c7movingWorld 1).x 0 = c7movingWorld.x 0 + c7movingWorld.vx 0 * 1 ∧
       (stepNoPairs c7movingWorld 1).y 0 = c7movingWorld.y 0 + c7movingWorld.vy 0 * 1 ∧
       (stepNoPairs c7movingWorld 1).z 0 = c7movingWorld.z 0 + c7movingWorld.vz 0 * 1) ∧
     (c7movingWorld.fixed 0 = true →
       (stepNoPairs c7movingWorld 1).x 0 = c7movingWorld.x 0 ∧
       (stepNoPairs c7movingWorld 1).y 0 = c7movingWorld.y 0 ∧
       (stepNoPairs c7movingWorld 1).z 0 = c7movingWorld.z 0)) :=
  ⟨rfl, fun _ => ⟨rfl, rfl, rfl⟩, fun _ => ⟨rfl, rfl, rfl⟩,
   fun _ _ _ => ⟨one_ne_zero, one_ne_zero, one_ne_zero⟩, Nat.zero_lt_one,
   c7_step_no_pairs c7movingWorld 1 rfl (fun _ => ⟨rfl, rfl, rfl⟩)
     (fun _ => ⟨rfl, rfl, rfl⟩)
     (fun _ _ _ => ⟨one_ne_zero, one_ne_zero, one_ne_zero⟩) 0 Nat.zero_lt_one⟩

/-- C8: the claim says `getVelocity` on an attached body returns the
velocity stored in the world's `vx/vy/vz` arrays.  The source instead reads
`this._world.x/y/z` — the POSITION arrays.  A body attached with position
`(1,2,3)` and velocity `(4,5,6)` gets `(1,2,3)` from `getVelocity`, not the
stored velocity `(4,5,6)`. -/
theorem c8_getVelocity_returns_position :
    getVelocity c8add.2 c8add.1 = ⟨1, 2, 3⟩ ∧
    c8add.1.vx.getD 0 0 = 4 ∧ c8add.1.vy.getD 0 0 = 5 ∧ c8add.1.vz.getD 0 0 = 6 ∧
    ((⟨1, 2, 3⟩ : V3) ≠ ⟨4, 5, 6⟩) := by
  refine ⟨?_, ?_, ?_, ?_, by norm_num [V3.mk.injEq]⟩ <;>
  norm_num [c8add, c8pair2, c8pair1, getVelocity, setVelocity, setPosition,
    worldAdd, growTo, mkRigidBody, emptyWorld, World.numObjects,
    List.range_succ]

/-- C9: the claim says every getter on a detached body returns the
in-record state without raising; in particular `getTorque` should return
the torque stored by `setTorque`.  `setTorque` does store `(7,8,9)` into
the record (field `_tau`), and the body stays detached (`_id = -1`), but
the detached branch of `getTorque` reads the never-assigned property
`_torque` and therefore throws (modelled by `none`) instead of returning
the stored value. -/
theorem c9_getTorque_detached_throws :
    (setTorque (mkRigidBody 1 (Shape.sphere 1)) emptyWorld 7 8 9).1._tau = ⟨7, 8, 9⟩ ∧
    (setTorque (mkRigidBody 1 (Shape.sphere 1)) emptyWorld 7 8 9).1._id = -1 ∧
    getTorque (setTorque (mkRigidBody 1 (Shape.sphere 1)) emptyWorld 7 8 9).1
      (setTorque (mkRigidBody 1 (Shape.sphere 1)) emptyWorld 7 8 9).2 = none := by
  refine ⟨?_, ?_, ?_⟩ <;> norm_num [setTorque, getTorque, mkRigidBody]

/-- C10: a rigid body constructed without `setOrientation` has orientation
quaternion `(x,y,z,w) = (1,0,0,0)` — unit norm but `w = 0`, acting on
vectors as the half-turn `v ↦ (v.x, -v.y, -v.z)` about the x-axis rather
than the identity — and `World.add` copies this quaternion unchanged into
the SoA slot of the new body. -/
theorem c10_default_orientation :
    ∀ (m : ℚ) (s : Shape) (w : World),
      (mkRigidBody m s)._quaternion = ⟨1, 0, 0, 0⟩ ∧
      Quat.normSq (mkRigidBody m s)._quaternion = 1 ∧
      (mkRigidBody m s)._quaternion.w = 0 ∧
      (∀ v : V3, Quat.vmult (mkRigidBody m s)._quaternion v = ⟨v.x, -v.y, -v.z⟩) ∧
      ((worldAdd w (mkRigidBody m s)).1.qx.getD w.numObjects 0 = 1 ∧
       (worldAdd w (mkRigidBody m s)).1.qy.getD w.numObjects 0 = 0 ∧
       (worldAdd w (mkRigidBody m s)).1.qz.getD w.numObjects 0 = 0 ∧
       (worldAdd w (mkRigidBody m s)).1.qw.getD w.numObjects 0 = 0) := by
  intro m s w
  refine ⟨rfl, by norm_num [Quat.normSq, mkRigidBody], rfl, ?_, ?_, ?_, ?_, ?_⟩
  · intro v
    simp [Quat.vmult, mkRigidBody, V3.mk.injEq]
  all_goals
    simpa [worldAdd, mkRigidBody] using getD_growTo w.numObjects _ (0:ℚ) _

end Cannon
